import Mathlib

/-!
Shallow embedding of `internal/exporter/exporter.go` from the
prometheus-awair-exporter repository, together with theorems settling the
specification claims about it.

Modelling conventions:
- Go `float64` sensor values are modelled as `ℚ`; the program performs no
  floating-point arithmetic, values only pass through from the JSON body to
  the emitted gauge.
- HTTP transport is modelled as a function from request URI to a transport
  result (transport error, or a status code plus an already-parsed JSON
  body); `http.Get` only fails on transport errors, never on HTTP status.
- `encoding/json.Unmarshal` into the two record shapes is modelled field by
  field: a missing key leaves the field at its zero value, a JSON `null`
  value is a no-op, a type-mismatched value is a decode error, duplicate
  keys are processed in order so the last occurrence wins, and a top-level
  value that is neither an object nor `null` is a decode error.
- Functions that issue HTTP requests also return the list of request URIs
  they issued, so that single-attempt (no retry) properties are statable.
- A Go `panic` (nil-pointer dereference, `MustNewConstMetric` failure) is
  modelled as `Option.none`.
-/

namespace Exporter

/-- JSON values, as produced by parsing a response body. Numbers are `ℚ`. -/
inductive Json where
  | null : Json
  | bool : Bool → Json
  | num : ℚ → Json
  | str : String → Json
  | arr : List Json → Json
  | obj : List (String × Json) → Json

/-- `type AwairValues struct` — the readings record (json tags in comments). -/
structure AwairValues where
  Score : ℚ          -- json:"score"
  DewPoint : ℚ       -- json:"dew_point"
  Temp : ℚ           -- json:"temp"
  Humidity : ℚ       -- json:"humid"
  AbsHumidity : ℚ    -- json:"abs_humid"
  CO2 : ℚ            -- json:"co2"
  CO2Est : ℚ         -- json:"co2_est"
  CO2EstBaseline : ℚ -- json:"co2_est_baseline"
  Voc : ℚ            -- json:"voc"
  VocBaseline : ℚ    -- json:"voc_baseline"
  VocH2Raw : ℚ       -- json:"voc_h2_raw"
  VocEthanolRaw : ℚ  -- json:"voc_ethanol_raw"
  PM25 : ℚ           -- json:"pm25"
  PM10Est : ℚ        -- json:"pm10_est"
deriving Repr, DecidableEq

/-- The zero value of `AwairValues`, i.e. Go's `AwairValues{}`. -/
def AwairValues.zero : AwairValues :=
  ⟨0, 0, 0, 0, 0, 0, 0, 0, 0, 0, 0, 0, 0, 0⟩

/-- `type LEDSettings struct` (untagged fields `Mode`, `Brightness`). -/
structure LEDSettings where
  Mode : String
  Brightness : Int
deriving Repr, DecidableEq

/-- The zero value of `LEDSettings`. -/
def LEDSettings.zero : LEDSettings := ⟨"", 0⟩

/-- `type ConfigResponse struct` — the device-configuration record. -/
structure ConfigResponse where
  DeviceUUID : String      -- json:"device_uuid"
  WifiMAC : String         -- json:"wifi_mac"
  SSID : String            -- json:"ssid"
  IP : String              -- json:"ip"
  Netmask : String         -- json:"netmask"
  Gateway : String         -- json:"gateway"
  FirmwareVersion : String -- json:"fw_version"
  Timezone : String        -- json:"timezone"
  Display : String         -- json:"display"
  LED : LEDSettings        -- json:"led"
  VocFeatureSet : Int      -- json:"voc_feature_set"
deriving Repr, DecidableEq

/-- The zero value of `ConfigResponse`, i.e. Go's `ConfigResponse{}`. -/
def ConfigResponse.zero : ConfigResponse :=
  ⟨"", "", "", "", "", "", "", "", "", LEDSettings.zero, 0⟩

/-- Look a key up in a decoded JSON object. `encoding/json` processes
duplicate keys in order, each overwriting the previous, so the last
occurrence wins. -/
def lookupField (fields : List (String × Json)) (key : String) : Option Json :=
  ((fields.filter (fun p => p.1 = key)).getLast?).map Prod.snd

/-- Look a key up for an untagged Go struct field: an exact-case match is
preferred, otherwise `encoding/json` falls back to a case-insensitive
match of the field name. -/
def lookupFieldCI (fields : List (String × Json)) (key : String) : Option Json :=
  match lookupField fields key with
  | some v => some v
  | none => ((fields.filter (fun p => p.1.toLower = key.toLower)).getLast?).map Prod.snd

/-- Decode one `float64` struct field from an optional JSON value.
Missing key and JSON `null` keep the current (zero) value; a JSON number
overwrites it; anything else is an `UnmarshalTypeError`. -/
def decodeFloatField (cur : ℚ) : Option Json → Except Unit ℚ
  | none => .ok cur
  | some (.num q) => .ok q
  | some .null => .ok cur
  | some _ => .error ()

/-- Decode one `string` struct field from an optional JSON value. -/
def decodeStringField (cur : String) : Option Json → Except Unit String
  | none => .ok cur
  | some (.str s) => .ok s
  | some .null => .ok cur
  | some _ => .error ()

/-- Decode one `int` struct field from an optional JSON value. A JSON
number with a fractional part does not unmarshal into a Go `int`. -/
def decodeIntField (cur : Int) : Option Json → Except Unit Int
  | none => .ok cur
  | some (.num q) => if q.den = 1 then .ok q.num else .error ()
  | some .null => .ok cur
  | some _ => .error ()

/-- `json.Unmarshal(body, &values)` into a fresh `AwairValues{}`. -/
def decodeAwairValues : Json → Except Unit AwairValues
  | .null => .ok AwairValues.zero
  | .obj fs => do
      let score ← decodeFloatField 0 (lookupField fs "score")
      let dewPoint ← decodeFloatField 0 (lookupField fs "dew_point")
      let temp ← decodeFloatField 0 (lookupField fs "temp")
      let humidity ← decodeFloatField 0 (lookupField fs "humid")
      let absHumidity ← decodeFloatField 0 (lookupField fs "abs_humid")
      let co2 ← decodeFloatField 0 (lookupField fs "co2")
      let co2Est ← decodeFloatField 0 (lookupField fs "co2_est")
      let co2EstBaseline ← decodeFloatField 0 (lookupField fs "co2_est_baseline")
      let voc ← decodeFloatField 0 (lookupField fs "voc")
      let vocBaseline ← decodeFloatField 0 (lookupField fs "voc_baseline")
      let vocH2Raw ← decodeFloatField 0 (lookupField fs "voc_h2_raw")
      let vocEthanolRaw ← decodeFloatField 0 (lookupField fs "voc_ethanol_raw")
      let pm25 ← decodeFloatField 0 (lookupField fs "pm25")
      let pm10Est ← decodeFloatField 0 (lookupField fs "pm10_est")
      .ok ⟨score, dewPoint, temp, humidity, absHumidity, co2, co2Est,
        co2EstBaseline, voc, vocBaseline, vocH2Raw, vocEthanolRaw, pm25, pm10Est⟩
  | _ => .error ()

/-- `json.Unmarshal` of the `led` sub-object into `LEDSettings` (fields are
untagged, so keys match the field names case-insensitively). -/
def decodeLEDSettings (cur : LEDSettings) : Json → Except Unit LEDSettings
  | .null => .ok cur
  | .obj fs => do
      let mode ← decodeStringField cur.Mode (lookupFieldCI fs "Mode")
      let brightness ← decodeIntField cur.Brightness (lookupFieldCI fs "Brightness")
      .ok ⟨mode, brightness⟩
  | _ => .error ()

/-- Decode the `led` struct field from an optional JSON value. -/
def decodeLEDField (cur : LEDSettings) : Option Json → Except Unit LEDSettings
  | none => .ok cur
  | some j => decodeLEDSettings cur j

/-- `json.Unmarshal(body, &config)` into a fresh `ConfigResponse{}`. -/
def decodeConfigResponse : Json → Except Unit ConfigResponse
  | .null => .ok ConfigResponse.zero
  | .obj fs => do
      let deviceUUID ← decodeStringField "" (lookupField fs "device_uuid")
      let wifiMAC ← decodeStringField "" (lookupField fs "wifi_mac")
      let ssid ← decodeStringField "" (lookupField fs "ssid")
      let ip ← decodeStringField "" (lookupField fs "ip")
      let netmask ← decodeStringField "" (lookupField fs "netmask")
      let gateway ← decodeStringField "" (lookupField fs "gateway")
      let fwVersion ← decodeStringField "" (lookupField fs "fw_version")
      let timezone ← decodeStringField "" (lookupField fs "timezone")
      let display ← decodeStringField "" (lookupField fs "display")
      let led ← decodeLEDField LEDSettings.zero (lookupField fs "led")
      let vocFeatureSet ← decodeIntField 0 (lookupField fs "voc_feature_set")
      .ok ⟨deviceUUID, wifiMAC, ssid, ip, netmask, gateway, fwVersion,
        timezone, display, led, vocFeatureSet⟩
  | _ => .error ()

/-! ### Metric descriptors (the `var (...)` block, `prometheus.NewDesc`) -/

/-- A `prometheus.Desc`: fully-qualified name, help text, variable labels.
`prometheus.BuildFQName("awair", "", name)` yields `"awair_" ++ name`. -/
structure Desc where
  fqName : String
  help : String
  variableLabels : List String
deriving Repr, DecidableEq

def score : Desc :=
  ⟨"awair_score", "Awair Score (0-100)", ["device_uuid"]⟩

def dew_point : Desc :=
  ⟨"awair_dew_point",
    "The temperature at which water will condense and form into dew (ºC)",
    ["device_uuid"]⟩

def temp : Desc :=
  ⟨"awair_temp", "Dry bulb temperature (ºC)", ["device_uuid"]⟩

def humidity : Desc :=
  ⟨"awair_humidity", "Relative Humidity (%)", ["device_uuid"]⟩

def abs_humidity : Desc :=
  ⟨"awair_absolute_humidity", "Absolute Humidity (g/m³)", ["device_uuid"]⟩

def co2 : Desc :=
  ⟨"awair_co2", "Carbon Dioxide (ppm)", ["device_uuid"]⟩

def co2_estimated : Desc :=
  ⟨"awair_co2_est",
    "Estimated Carbon Dioxide (ppm - calculated by the TVOC sensor)",
    ["device_uuid"]⟩

def co2_estimate_baseline : Desc :=
  ⟨"awair_co2_est_baseline",
    "A unitless value that represents the baseline from which the TVOC sensor partially derives its estimated (e)CO₂output.",
    ["device_uuid"]⟩

def voc : Desc :=
  ⟨"awair_voc", "Total Volatile Organic Compounds (ppb)", ["device_uuid"]⟩

def voc_baseline : Desc :=
  ⟨"awair_voc_baseline",
    "A unitless value that represents the baseline from which the TVOC sensor partially derives its TVOC output.",
    ["device_uuid"]⟩

def voc_h2_raw : Desc :=
  ⟨"awair_voc_h2_raw",
    "A unitless value that represents the Hydrogen gas signal from which the TVOC sensor partially derives its TVOC output.",
    ["device_uuid"]⟩

def voc_ethanol_raw : Desc :=
  ⟨"awair_voc_ethanol_raw",
    "A unitless value that represents the Ethanol gas signal from which the TVOC sensor partially derives its TVOC output.",
    ["device_uuid"]⟩

def pm25 : Desc :=
  ⟨"awair_pm25",
    "Particulate matter less than 2.5 microns in diameter (µg/m³)",
    ["device_uuid"]⟩

def pm10 : Desc :=
  ⟨"awair_pm10",
    "Estimated particulate matter less than 10 microns in diameter (µg/m³ - calculated by the PM2.5 sensor)",
    ["device_uuid"]⟩

def info : Desc :=
  ⟨"awair_device_info", "Info about the awair device",
    ["device_uuid", "firmware_version", "voc_feature_set"]⟩

/-! ### HTTP transport model and device-client operations -/

/-- Result of `http.Get`: a transport error, or a response carrying an HTTP
status code and a body (already parsed as JSON; an unparsable body is any
`Json` the decoders reject — parse errors and shape errors both surface as
`json.Unmarshal` errors, which this model folds into the decoder). -/
inductive TransportResult where
  | err : TransportResult
  | ok : Nat → Json → TransportResult

/-- The network: what `http.Get` returns for each request URI. -/
def Transport : Type := String → TransportResult

/-- `type AwairExporter struct { hostname string }` -/
structure AwairExporter where
  hostname : String
deriving Repr, DecidableEq

/-- The URI built by `GetMetrics`: `fmt.Sprintf("http://%s/air-data/latest", e.hostname)`. -/
def metricsURI (hostname : String) : String :=
  "http://" ++ hostname ++ "/air-data/latest"

/-- The URI built by `GetConfig`: `fmt.Sprintf("http://%s/settings/config/data", e.hostname)`. -/
def configURI (hostname : String) : String :=
  "http://" ++ hostname ++ "/settings/config/data"

/-- `func (e *AwairExporter) GetMetrics() (*AwairValues, error)`.
Returns the list of request URIs issued alongside the result; the body of
the function performs exactly one `http.Get` and no retry. -/
def GetMetrics (t : Transport) (e : AwairExporter) :
    List String × Except Unit AwairValues :=
  let uri := metricsURI e.hostname
  ([uri],
    match t uri with
    | .err => .error ()
    | .ok _ body => decodeAwairValues body)

/-- `func (e *AwairExporter) GetConfig() (*ConfigResponse, error)`. -/
def GetConfig (t : Transport) (e : AwairExporter) :
    List String × Except Unit ConfigResponse :=
  let uri := configURI e.hostname
  ([uri],
    match t uri with
    | .err => .error ()
    | .ok _ body => decodeConfigResponse body)

/-- `func NewAwairExporter(hostname string) (*AwairExporter, error)`:
builds the exporter, performs one `GetConfig`, propagates its error. -/
def NewAwairExporter (t : Transport) (hostname : String) :
    List String × Except Unit AwairExporter :=
  let ex : AwairExporter := ⟨hostname⟩
  let fetch := GetConfig t ex
  (fetch.1,
    match fetch.2 with
    | .error e => .error e
    | .ok _ => .ok ex)

/-- `func (e *AwairExporter) Describe(ch chan<- *prometheus.Desc)`:
the sequence of descriptors sent on the channel, in source order. -/
def Describe (_e : AwairExporter) : List Desc :=
  [score, dew_point, temp, humidity, abs_humidity, co2, co2_estimated,
    co2_estimate_baseline, voc, voc_baseline, voc_h2_raw, voc_ethanol_raw,
    pm25, pm10, info]

/-! ### Collect -/

/-- One emitted metric observation: its descriptor, gauge value, and the
variable-label values passed to `prometheus.MustNewConstMetric`. -/
structure Metric where
  desc : Desc
  value : ℚ
  labelValues : List String
deriving Repr, DecidableEq

/-- `prometheus.MustNewConstMetric`: panics (`none`) unless the number of
label values matches the descriptor's variable labels. -/
def MustNewConstMetric (d : Desc) (v : ℚ) (labelValues : List String) :
    Option Metric :=
  if d.variableLabels.length = labelValues.length then
    some ⟨d, v, labelValues⟩
  else
    none

/-- Sequence a list of `MustNewConstMetric` results: `none` as soon as one
send panics, otherwise the list of metrics sent, in order. -/
def allSome : List (Option Metric) → Option (List Metric)
  | [] => some []
  | none :: _ => none
  | some m :: rest =>
      match allSome rest with
      | none => none
      | some ms => some (m :: ms)

/-- The emission phase of `Collect` (lines 307-355): fifteen
`MustNewConstMetric` sends in source order. `none` models a panic. -/
def emitMetrics (values : AwairValues) (config : ConfigResponse) :
    Option (List Metric) :=
  allSome
    [MustNewConstMetric score values.Score [config.DeviceUUID],
      MustNewConstMetric dew_point values.DewPoint [config.DeviceUUID],
      MustNewConstMetric temp values.Temp [config.DeviceUUID],
      MustNewConstMetric humidity values.Humidity [config.DeviceUUID],
      MustNewConstMetric abs_humidity values.AbsHumidity [config.DeviceUUID],
      MustNewConstMetric co2 values.CO2 [config.DeviceUUID],
      MustNewConstMetric co2_estimated values.CO2Est [config.DeviceUUID],
      MustNewConstMetric co2_estimate_baseline values.CO2EstBaseline [config.DeviceUUID],
      MustNewConstMetric voc values.Voc [config.DeviceUUID],
      MustNewConstMetric voc_baseline values.VocBaseline [config.DeviceUUID],
      MustNewConstMetric voc_h2_raw values.VocH2Raw [config.DeviceUUID],
      MustNewConstMetric voc_ethanol_raw values.VocEthanolRaw [config.DeviceUUID],
      MustNewConstMetric pm25 values.PM25 [config.DeviceUUID],
      MustNewConstMetric pm10 values.PM10Est [config.DeviceUUID],
      MustNewConstMetric info 1
        [config.DeviceUUID, config.FirmwareVersion, toString config.VocFeatureSet]]

/-- `func (e *AwairExporter) Collect(ch chan<- prometheus.Metric)`.

The local pointers start at `&AwairValues{}` / `&ConfigResponse{}`, but
each goroutine unconditionally reassigns its pointer with the fetch's
return value (`values, err = e.GetMetrics()`), so after the `wg.Wait()`
join the pointer is the fetched record on success and `nil` on failure —
the initial defaults are dead stores. The emission phase dereferences both
pointers; a `nil` pointer there is a panic, modelled as `none`. The result
is the list of metrics sent on `ch`, or `none` when the cycle panics. -/
def Collect (t : Transport) (e : AwairExporter) : Option (List Metric) :=
  let values : Option AwairValues :=
    match (GetMetrics t e).2 with
    | .ok v => some v
    | .error _ => none
  let config : Option ConfigResponse :=
    match (GetConfig t e).2 with
    | .ok c => some c
    | .error _ => none
  match values, config with
  | some v, some c => emitMetrics v c
  | _, _ => none

/-! ### Auxiliary definitions for stating the claims -/

/-- The fourteen numeric-gauge descriptors, in the order `Collect` emits
them (everything before the final `info` metric). -/
def numericDescs : List Desc :=
  [score, dew_point, temp, humidity, abs_humidity, co2, co2_estimated,
    co2_estimate_baseline, voc, voc_baseline, voc_h2_raw, voc_ethanol_raw,
    pm25, pm10]

/-- The readings record's fields in the order `Collect` emits them. -/
def readingsFields (v : AwairValues) : List ℚ :=
  [v.Score, v.DewPoint, v.Temp, v.Humidity, v.AbsHumidity, v.CO2, v.CO2Est,
    v.CO2EstBaseline, v.Voc, v.VocBaseline, v.VocH2Raw, v.VocEthanolRaw,
    v.PM25, v.PM10Est]

/-- The operations available on a constructed exporter. -/
inductive Op where
  | describeCall : Op
  | collectCall : Op
  | metricsCall : Op
  | configCall : Op

/-- Run one exporter method and return the receiver's state afterwards.
Every method takes the receiver by pointer but contains no assignment to
any of its fields, so the post-state is the unchanged receiver. -/
def applyOp (t : Transport) (e : AwairExporter) : Op → AwairExporter
  | .describeCall => let _ := Describe e; e
  | .collectCall => let _ := Collect t e; e
  | .metricsCall => let _ := GetMetrics t e; e
  | .configCall => let _ := GetConfig t e; e

/-- A network where every request succeeds with an empty JSON object
(which decodes into both record shapes as all-zero records). -/
def okTransport : Transport :=
  fun _ => TransportResult.ok 200 (Json.obj [])

/-- A network where every request fails at the transport layer. -/
def errTransport : Transport :=
  fun _ => TransportResult.err

/-- A network where every request yields HTTP status 500 with an empty
JSON object body. -/
def status500Transport : Transport :=
  fun _ => TransportResult.ok 500 (Json.obj [])

/-- A network where only the configuration endpoint of host `dev` is
reachable; the readings request fails at the transport layer. -/
def configOnlyTransport : Transport :=
  fun uri =>
    if uri = configURI "dev" then TransportResult.ok 200 (Json.obj [])
    else TransportResult.err

/-- A network where only the readings endpoint of host `dev` is
reachable; the configuration request fails at the transport layer. -/
def metricsOnlyTransport : Transport :=
  fun uri =>
    if uri = metricsURI "dev" then TransportResult.ok 200 (Json.obj [])
    else TransportResult.err

/-- The literal readings body of the round-trip property. -/
def readingsBody : Json :=
  Json.obj
    [("score", Json.num 85), ("dew_point", Json.num 12.3),
      ("temp", Json.num 21.5), ("humid", Json.num 40.2),
      ("abs_humid", Json.num 7.1), ("co2", Json.num 612),
      ("co2_est", Json.num 600), ("co2_est_baseline", Json.num 4200),
      ("voc", Json.num 250), ("voc_baseline", Json.num 18000),
      ("voc_h2_raw", Json.num 12500), ("voc_ethanol_raw", Json.num 18800),
      ("pm25", Json.num 3), ("pm10_est", Json.num 5)]

/-- The literal configuration body of the round-trip property. -/
def configBody : Json :=
  Json.obj
    [("device_uuid", Json.str "awair-123"),
      ("fw_version", Json.str "1.2.3"),
      ("voc_feature_set", Json.num 3)]

/-- A network serving the two literal bodies above for host `dev`. -/
def roundTripTransport : Transport :=
  fun uri =>
    if uri = metricsURI "dev" then TransportResult.ok 200 readingsBody
    else if uri = configURI "dev" then TransportResult.ok 200 configBody
    else TransportResult.err

/-! ## Theorems settling the claims -/

/-- C1: the claim states that when exactly one fetch fails, the failed
side is a zero-valued default record and `Collect` still emits every
metric. The code contradicts this (and its own zero-default
initialization): the goroutine's `values, err = e.GetMetrics()` reassigns
the pointer to `nil` on error, and the emission phase dereferences it.
At the failing input — readings fetch transport-fails, configuration
fetch succeeds — the cycle panics and emits nothing instead of emitting
the numeric gauges with value 0. -/
theorem collect_panics_on_readings_failure :
    (GetConfig configOnlyTransport ⟨"dev"⟩).2 = Except.ok ConfigResponse.zero ∧
    (GetMetrics configOnlyTransport ⟨"dev"⟩).2 = Except.error () ∧
    Collect configOnlyTransport ⟨"dev"⟩ = none :=
  ⟨rfl, rfl, rfl⟩

/-- C2: the claim states that for every outcome of the two fetches the
emission phase completes and no cycle is skipped. At the failing input —
readings fetch succeeds, configuration fetch transport-fails — the code
reassigns the configuration pointer to `nil`, the emission phase
dereferences it, and the cycle panics: nothing is emitted. -/
theorem collect_panics_on_config_failure :
    (GetMetrics metricsOnlyTransport ⟨"dev"⟩).2 = Except.ok AwairValues.zero ∧
    (GetConfig metricsOnlyTransport ⟨"dev"⟩).2 = Except.error () ∧
    Collect metricsOnlyTransport ⟨"dev"⟩ = none :=
  ⟨rfl, rfl, rfl⟩

/-- C3 (counterexample): at a both-fetches-succeed input, `Collect` emits
fifteen observations, not the fourteen the claim states. -/
theorem collect_emits_fifteen_not_fourteen :
    (Collect okTransport ⟨"dev"⟩).map List.length = some 15 ∧
    (Collect okTransport ⟨"dev"⟩).map List.length ≠ some 14 := by
  refine ⟨rfl, ?_⟩
  intro hcontra
  rw [show (Collect okTransport ⟨"dev"⟩).map List.length = some 15 from rfl] at hcontra
  cases hcontra

/-- C7 (counterexample): `Describe` sends fifteen descriptors, not the
fourteen the claim states. -/
theorem describe_fifteen_not_fourteen :
    (Describe ⟨"dev"⟩).length = 15 ∧ (Describe ⟨"dev"⟩).length ≠ 14 := by
  refine ⟨rfl, ?_⟩
  intro hcontra
  rw [show (Describe (⟨"dev"⟩ : AwairExporter)).length = 15 from rfl] at hcontra
  cases hcontra

/-- C5: serving the literal readings and configuration bodies of the
round-trip property, the collection cycle emits `awair_score` 85 and
`awair_co2` 612 labeled `device_uuid="awair-123"`, and `awair_device_info`
1 labeled `device_uuid="awair-123"`, `firmware_version="1.2.3"`,
`voc_feature_set="3"`. -/
theorem collect_round_trip_literal :
    ∃ ms, Collect roundTripTransport ⟨"dev"⟩ = some ms ∧
      Metric.mk score 85 ["awair-123"] ∈ ms ∧
      Metric.mk co2 612 ["awair-123"] ∈ ms ∧
      Metric.mk info 1 ["awair-123", "1.2.3", "3"] ∈ ms := by
  refine ⟨_, rfl, ?_, ?_, ?_⟩ <;> decide

/-- C3 (amended): when both fetches of a collection cycle succeed,
`Collect` emits exactly fifteen metric observations in a fixed order: the
fourteen numeric gauges (each value the corresponding `Readings` field,
labeled with the configuration's device identifier) followed last by one
informational gauge with constant value 1 and labels device identifier,
firmware version, and feature-set code rendered as a decimal string. -/
theorem collect_success_emission (t : Transport) (e : AwairExporter)
    (v : AwairValues) (c : ConfigResponse)
    (hv : (GetMetrics t e).2 = Except.ok v)
    (hc : (GetConfig t e).2 = Except.ok c) :
    Collect t e =
      some (List.zipWith (fun d q => Metric.mk d q [c.DeviceUUID])
          numericDescs (readingsFields v) ++
        [Metric.mk info 1
          [c.DeviceUUID, c.FirmwareVersion, toString c.VocFeatureSet]]) ∧
    ∀ ms, Collect t e = some ms → ms.length = 15 := by
  have hmain : Collect t e =
      some (List.zipWith (fun d q => Metric.mk d q [c.DeviceUUID])
          numericDescs (readingsFields v) ++
        [Metric.mk info 1
          [c.DeviceUUID, c.FirmwareVersion, toString c.VocFeatureSet]]) := by
    unfold Collect
    rw [hv, hc]
    rfl
  refine ⟨hmain, ?_⟩
  intro ms hms
  rw [hmain] at hms
  cases hms
  rfl

/-- Closed witness for `collect_success_emission` at a concrete network
where both endpoints return an empty JSON object (decoding to the
all-zero records). -/
theorem collect_success_emission_witness :
    Collect okTransport ⟨"dev"⟩ =
      some (List.zipWith
          (fun d q => Metric.mk d q [ConfigResponse.zero.DeviceUUID])
          numericDescs (readingsFields AwairValues.zero) ++
        [Metric.mk info 1
          [ConfigResponse.zero.DeviceUUID, ConfigResponse.zero.FirmwareVersion,
            toString ConfigResponse.zero.VocFeatureSet]]) ∧
    ∀ ms, Collect okTransport ⟨"dev"⟩ = some ms → ms.length = 15 :=
  collect_success_emission okTransport ⟨"dev"⟩ AwairValues.zero
    ConfigResponse.zero rfl rfl

/-- C4: construction performs exactly one immediate configuration fetch,
fails exactly when that fetch errors (propagating the error, returning no
exporter), and on fetch success returns the exporter carrying the given
hostname. -/
theorem newAwairExporter_spec (t : Transport) (h : String) :
    (NewAwairExporter t h).1 = [configURI h] ∧
    (∀ err, (GetConfig t ⟨h⟩).2 = Except.error err →
      (NewAwairExporter t h).2 = Except.error err) ∧
    (∀ c, (GetConfig t ⟨h⟩).2 = Except.ok c →
      (NewAwairExporter t h).2 = Except.ok ⟨h⟩) := by
  refine ⟨rfl, ?_, ?_⟩
  · intro err herr
    simp only [NewAwairExporter]
    rw [herr]
  · intro c hc
    simp only [NewAwairExporter]
    rw [hc]

/-- Closed witness for `newAwairExporter_spec`: on a network where every
request succeeds, construction returns the exporter for the given host. -/
theorem newAwairExporter_spec_witness :
    (GetConfig okTransport ⟨"dev"⟩).2 = Except.ok ConfigResponse.zero ∧
    (NewAwairExporter okTransport "dev").2 = Except.ok ⟨"dev"⟩ :=
  ⟨rfl, (newAwairExporter_spec okTransport "dev").2.2 ConfigResponse.zero rfl⟩

/-- C6: `GetMetrics` issues a single GET to
`http://<host>/air-data/latest` (the request log is exactly that one URI —
no retry), surfaces every transport failure as an error, and on non-error
transport returns exactly what JSON decoding of the body yields, so every
shape mismatch is surfaced as an error as well. -/
theorem getMetrics_single_get_fail_fast (t : Transport) (e : AwairExporter) :
    (GetMetrics t e).1 = [metricsURI e.hostname] ∧
    metricsURI e.hostname = "http://" ++ e.hostname ++ "/air-data/latest" ∧
    (t (metricsURI e.hostname) = TransportResult.err →
      (GetMetrics t e).2 = Except.error ()) ∧
    (∀ s b, t (metricsURI e.hostname) = TransportResult.ok s b →
      (GetMetrics t e).2 = decodeAwairValues b) := by
  refine ⟨rfl, rfl, ?_, ?_⟩
  · intro herr
    simp only [GetMetrics]
    rw [herr]
  · intro s b hok
    simp only [GetMetrics]
    rw [hok]

/-- Closed witness for `getMetrics_single_get_fail_fast` at a network
where every request fails at the transport layer. -/
theorem getMetrics_single_get_fail_fast_witness :
    (GetMetrics errTransport ⟨"dev"⟩).1 = [metricsURI "dev"] ∧
    (GetMetrics errTransport ⟨"dev"⟩).2 = Except.error () :=
  ⟨(getMetrics_single_get_fail_fast errTransport ⟨"dev"⟩).1,
    (getMetrics_single_get_fail_fast errTransport ⟨"dev"⟩).2.2.1 rfl⟩

/-- C7 (amended): `Describe` sends the same fixed sequence of fifteen
(name, label-set) descriptor pairs regardless of device state or
connectivity; every numeric descriptor carries exactly the one label
`device_uuid`, and the informational descriptor (sent last) carries the
three labels `device_uuid`, `firmware_version`, `voc_feature_set`. -/
theorem describe_stable_labels (e e' : AwairExporter) :
    Describe e = Describe e' ∧
    (Describe e).length = 15 ∧
    (∀ d ∈ (Describe e).take 14, d.variableLabels = ["device_uuid"]) ∧
    (Describe e).getLast? = some info ∧
    info.variableLabels = ["device_uuid", "firmware_version", "voc_feature_set"] := by
  refine ⟨rfl, rfl, ?_, rfl, rfl⟩
  intro d hd
  simp only [Describe, List.take] at hd
  fin_cases hd <;> rfl

/-- Closed witness for `describe_stable_labels` at two distinct concrete
exporters and the concrete descriptor `temp`. -/
theorem describe_stable_labels_witness :
    Describe ⟨"a"⟩ = Describe ⟨"b"⟩ ∧ temp.variableLabels = ["device_uuid"] :=
  ⟨(describe_stable_labels ⟨"a"⟩ ⟨"b"⟩).1,
    (describe_stable_labels ⟨"a"⟩ ⟨"b"⟩).2.2.1 temp (by decide)⟩

/-- C9: neither fetch inspects the HTTP status code: for every status `s`
(500 included), if the body decodes into the target record shape the
fetch returns success with that record; and a body missing every field
decodes to the zero-valued record, so missing fields are not errors. -/
theorem fetch_ignores_status (t : Transport) (e : AwairExporter)
    (s : Nat) (b : Json) :
    (∀ v, t (metricsURI e.hostname) = TransportResult.ok s b →
      decodeAwairValues b = Except.ok v →
      (GetMetrics t e).2 = Except.ok v) ∧
    (∀ c, t (configURI e.hostname) = TransportResult.ok s b →
      decodeConfigResponse b = Except.ok c →
      (GetConfig t e).2 = Except.ok c) ∧
    decodeAwairValues (Json.obj []) = Except.ok AwairValues.zero ∧
    decodeConfigResponse (Json.obj []) = Except.ok ConfigResponse.zero := by
  refine ⟨?_, ?_, rfl, rfl⟩
  · intro v hok hdec
    simp only [GetMetrics]
    rw [hok]
    exact hdec
  · intro c hok hdec
    simp only [GetConfig]
    rw [hok]
    exact hdec

/-- Closed witness for `fetch_ignores_status`: a 500 response with an
empty JSON object body is reported as a successful fetch of the
zero-valued readings record. -/
theorem fetch_ignores_status_witness :
    (GetMetrics status500Transport ⟨"dev"⟩).2 = Except.ok AwairValues.zero :=
  (fetch_ignores_status status500Transport ⟨"dev"⟩ 500 (Json.obj [])).1
    AwairValues.zero rfl rfl

/-- Each exporter method leaves the receiver unchanged: no method body
contains an assignment to any field of the receiver. -/
theorem applyOp_id (t : Transport) (e : AwairExporter) (op : Op) :
    applyOp t e op = e := by
  cases op <;> rfl

/-- C10: the exporter's whole state is the hostname fixed at
construction; after any sequence of `Describe` / `Collect` /
`GetMetrics` / `GetConfig` calls, the hostname still equals the hostname
the exporter was constructed with. -/
theorem hostname_immutable (t : Transport) (h : String) (ex : AwairExporter)
    (ops : List Op) (hex : (NewAwairExporter t h).2 = Except.ok ex) :
    (ops.foldl (applyOp t) ex).hostname = h := by
  have hex' : ex.hostname = h := by
    simp only [NewAwairExporter] at hex
    rcases hcfg : (GetConfig t (⟨h⟩ : AwairExporter)).2 with err | c
    · rw [hcfg] at hex
      cases hex
    · rw [hcfg] at hex
      cases hex
      rfl
  have hfold : ∀ (l : List Op) (e : AwairExporter),
      l.foldl (applyOp t) e = e := by
    intro l
    induction l with
    | nil => intro e; rfl
    | cons op rest ih =>
        intro e
        rw [List.foldl_cons, applyOp_id, ih]
  rw [hfold]
  exact hex'

/-- Closed witness for `hostname_immutable`: a constructed exporter keeps
hostname `dev` across a sequence of all four operations. -/
theorem hostname_immutable_witness :
    (NewAwairExporter okTransport "dev").2 = Except.ok ⟨"dev"⟩ ∧
    (([Op.collectCall, Op.describeCall, Op.metricsCall, Op.configCall]).foldl
      (applyOp okTransport) ⟨"dev"⟩).hostname = "dev" :=
  ⟨rfl,
    hostname_immutable okTransport "dev" ⟨"dev"⟩
      [Op.collectCall, Op.describeCall, Op.metricsCall, Op.configCall] rfl⟩

end Exporter
